import Mathlib

/-!
Verification of the text-to-label classification pipeline of the
employee-survey-dashboard repository (files `text_analysis_ml.py` and
`ai_text_analysis_standalone.py`) against its natural-language
specification.

The relevant Python functions are shallowly embedded as executable Lean
definitions: pandas/numpy numbers become `ℚ`, `NaN`/missing cells become
`Option ℚ`, Python exceptions become `Except`/`Option`, and dictionaries
(whose insertion order the code relies on) become association lists.
-/

/- ### Tokenizer (`japanese_tokenizer`, text_analysis_ml.py lines 55-97)

The simple/regex fallback path extracts maximal runs of characters from
the class `[ぁ-んァ-ヶー一-龯\w]`, then (like every other path) keeps only
tokens `t` with `len(t) >= 1 and not t.isdigit()` after `strip()`.
Python strings are modelled as `List Char`.  Python's Unicode-aware `\w`
is modelled as ASCII alphanumerics plus underscore together with the
named Japanese ranges; this preserves the digit/empty behaviour the
claims are about. -/

/-- Python `str.strip()`: drop whitespace from both ends. -/
def pyStrip (s : List Char) : List Char :=
  ((s.dropWhile Char.isWhitespace).reverse.dropWhile
    Char.isWhitespace).reverse

/-- Python `str.isdigit`: true iff the string is nonempty and all its
characters are digits. -/
def pyIsDigit (s : List Char) : Bool :=
  !s.isEmpty && s.all (fun c => c.isDigit)

/-- Character class of the regex `[ぁ-んァ-ヶー一-龯\w]` used by the
fallback tokenizer: hiragana, katakana, the prolonged sound mark, CJK
ideographs, and word characters. -/
def isTokChar (c : Char) : Bool :=
  c.isAlphanum || c == '_' ||
  (0x3041 ≤ c.toNat && c.toNat ≤ 0x3093) ||
  (0x30A1 ≤ c.toNat && c.toNat ≤ 0x30F6) ||
  c.toNat == 0x30FC ||
  (0x4E00 ≤ c.toNat && c.toNat ≤ 0x9FAF)

/-- Splits a character list into the maximal runs of `isTokChar`
characters, i.e. `re.findall(r'[ぁ-んァ-ヶー一-龯\w]+', text)`.
`acc` holds the current run in reverse. -/
def tokenRunsAux : List Char → List Char → List (List Char)
  | [], acc => if acc.isEmpty then [] else [acc.reverse]
  | c :: cs, acc =>
    if isTokChar c then tokenRunsAux cs (c :: acc)
    else if acc.isEmpty then tokenRunsAux cs []
    else acc.reverse :: tokenRunsAux cs []

/-- `re.findall(r'[ぁ-んァ-ヶー一-龯\w]+', text)`. -/
def tokenRuns (s : List Char) : List (List Char) :=
  tokenRunsAux s []

/-- The filtering loop applied after whichever tokenization method ran:
`token = str(token).strip()`, keep if `len(token) >= 1 and not
token.isdigit()` (text_analysis_ml.py lines 82-87). -/
def tokenFilter (raw : List (List Char)) : List (List Char) :=
  (raw.map pyStrip).filter (fun t => 1 ≤ t.length && !(pyIsDigit t))

/-- `japanese_tokenizer` on the regex-fallback path: `None`/NaN input is
modelled as `none`; the function returns `[]` for missing or blank text,
otherwise the filtered regex runs. -/
def japaneseTokenizer (text : Option (List Char)) : List (List Char) :=
  match text with
  | none => []
  | some t =>
    let t := pyStrip t
    if t.isEmpty then [] else tokenFilter (tokenRuns t)

/- ### Ensemble vote (`show_text_analysis_ml_page` lines 1055-1072)

`predictions` is a dict built by iterating over the trained-models dict
(insertion order: Decision Tree, Random Forest, Gradient Boosting, minus
any model whose `fit` or `predict` failed); the ensemble label is
`Counter(predictions.values()).most_common(1)[0][0]`.  `Counter` counts
values in first-encounter order and `most_common` orders equal counts by
first encounter, so ties go to the earliest-inserted label. -/

/-- `Counter(vs)`: association list of (value, count) in first-encounter
order. -/
def counterOf (vs : List Bool) : List (Bool × Nat) :=
  vs.foldl
    (fun acc v =>
      if acc.any (fun p => p.1 == v) then
        acc.map (fun p => if p.1 == v then (p.1, p.2 + 1) else p)
      else acc ++ [(v, 1)])
    []

/-- `Counter(vs).most_common(1)[0][0]`: the value with the largest count;
among equal counts the first-encountered value wins (Python `Counter`
documents this ordering). -/
def mostCommon1 (vs : List Bool) : Option Bool :=
  match counterOf vs with
  | [] => none
  | p :: ps =>
    some (ps.foldl (fun best q => if best.2 < q.2 then q else best) p).1

/-- The ensemble label computed from the per-model predictions (an
association list from model name to predicted label, in the trained-models
dict's iteration order). -/
def ensemblePred (preds : List (String × Bool)) : Option Bool :=
  mostCommon1 (preds.map Prod.snd)

/-- The construction order of the models dict in `train_ensemble_models`
(text_analysis_ml.py lines 318-322). -/
def modelConstructionOrder : List String :=
  ["Decision Tree", "Random Forest", "Gradient Boosting"]

/- ### Confidence score (`show_text_analysis_ml_page` lines 1098-1109)

For each model's probability vector `prob` with `len(prob) >= 2` the code
appends `max(prob) - min(prob)` to `confidence_scores` and reports
`np.mean(confidence_scores)` when that list is nonempty. -/

/-- Python `max` over a nonempty list (0 as an unused default). -/
def pyMax : List ℚ → ℚ
  | [] => 0
  | h :: t => t.foldl max h

/-- Python `min` over a nonempty list (0 as an unused default). -/
def pyMin : List ℚ → ℚ
  | [] => 0
  | h :: t => t.foldl min h

/-- `confidence_scores`: one `max(prob) - min(prob)` entry per collected
probability vector of length ≥ 2. -/
def confidenceScores (probs : List (List ℚ)) : List ℚ :=
  (probs.filter (fun p => 2 ≤ p.length)).map (fun p => pyMax p - pyMin p)

/-- `np.mean(confidence_scores)` when nonempty, otherwise no confidence
is reported. -/
def avgConfidence (probs : List (List ℚ)) : Option ℚ :=
  let cs := confidenceScores probs
  if cs.isEmpty then none else some (cs.sum / cs.length)

/- ### Label derivation

Two derivations exist in text_analysis_ml.py:

* `identify_low_performers` (lines 164-170): `threshold =
  df[kpi].quantile(0.2)` (linear interpolation, the pandas default) and a
  fixed-threshold comparison `score <= threshold`.

* `load_real_data_for_analysis` (lines 558-577): `n_low =
  int(n_samples * 0.2)`, `sorted_indices = scores.argsort()`, and the
  first `n_low` positions of the ascending argsort get label 1.

`int(n * 0.2)` truncates; with `0.2` idealized as the exact rational
`1/5` this is `n / 5` in natural division.  numpy's argsort is modelled
as `insertionSort` of the index list ordered by value with ties broken by
index; the claims proved below do not depend on the tie order. -/

/-- `int(n_samples * 0.2)`: the number of rows labelled 1 by
`load_real_data_for_analysis`. -/
def nLow (n : ℕ) : ℕ := n / 5

/-- Value-then-index comparison used to model `argsort` on a score list
`s` (indices compared through `s.getD · 0`). -/
def argRel (s : List ℚ) (i j : ℕ) : Prop :=
  s.getD i 0 < s.getD j 0 ∨ (s.getD i 0 = s.getD j 0 ∧ i ≤ j)

instance argRel.decidable (s : List ℚ) : DecidableRel (argRel s) := by
  intro i j
  unfold argRel
  infer_instance

instance argRel.total (s : List ℚ) : IsTotal ℕ (argRel s) := by
  constructor
  intro i j
  rcases lt_trichotomy (s.getD i 0) (s.getD j 0) with h | h | h
  · exact Or.inl (Or.inl h)
  · rcases Nat.le_total i j with hij | hij
    · exact Or.inl (Or.inr ⟨h, hij⟩)
    · exact Or.inr (Or.inr ⟨h.symm, hij⟩)
  · exact Or.inr (Or.inl h)

instance argRel.trans (s : List ℚ) : IsTrans ℕ (argRel s) := by
  constructor
  intro i j k hij hjk
  rcases hij with h1 | ⟨h1, h1'⟩
  · rcases hjk with h2 | ⟨h2, _⟩
    · exact Or.inl (h1.trans h2)
    · exact Or.inl (h2 ▸ h1)
  · rcases hjk with h2 | ⟨h2, h2'⟩
    · exact Or.inl (h1 ▸ h2)
    · exact Or.inr ⟨h1.trans h2, h1'.trans h2'⟩

/-- `satisfaction_scores.argsort()`: the indices `0 .. n-1` sorted
ascending by score. -/
def argsortIdx (s : List ℚ) : List ℕ :=
  List.insertionSort (argRel s) (List.range s.length)

/-- `sorted_indices[:n_low]`: the indices that receive label 1. -/
def lowIdx (s : List ℚ) : List ℕ :=
  (argsortIdx s).take (nLow s.length)

/-- The label `load_real_data_for_analysis` assigns to row `i`:
`df['is_low_satisfaction'] = 0` then `df.loc[low_satisfaction_indices,
'is_low_satisfaction'] = 1`. -/
def labelOf (s : List ℚ) (i : ℕ) : ℕ :=
  if i ∈ lowIdx s then 1 else 0

/-- The full derived label column of `load_real_data_for_analysis`. -/
def derivedLabels (s : List ℚ) : List ℕ :=
  (List.range s.length).map (labelOf s)

/-- Pandas `Series.quantile(0.2)` with the default linear interpolation:
position `0.2 * (n - 1)` in the ascending sort, interpolating between the
two neighbouring order statistics. -/
def quantile02 (s : List ℚ) : ℚ :=
  match s.length with
  | 0 => 0
  | Nat.succ m =>
    let sorted := List.insertionSort (fun a b : ℚ => a ≤ b) s
    let pos : ℚ := (2 / 10) * (m : ℚ)
    let i : ℕ := (Int.floor pos).toNat
    let lo := sorted.getD i 0
    let hi := sorted.getD (i + 1) lo
    lo + (pos - (i : ℚ)) * (hi - lo)

/-- `identify_low_performers` (text_analysis_ml.py lines 164-170): label
1 exactly for the scores `<=` the 20% quantile value. -/
def identifyLowPerformers (s : List ℚ) : List ℕ :=
  s.map (fun x => if x ≤ quantile02 s then 1 else 0)

/-- Python `round` (banker's rounding: halves go to the even integer),
used to state the spec's `round(0.2 * N)` count. -/
def pyRound (q : ℚ) : ℤ :=
  let f := Int.floor q
  let r := q - (f : ℚ)
  if r < 1 / 2 then f
  else if (1 : ℚ) / 2 < r then f + 1
  else if f % 2 = 0 then f else f + 1

/- ### Train/test split (`train_ensemble_models`)

text_analysis_ml.py lines 284-301: compute the class counts of `y`; if
the smallest class has fewer than 2 members, warn and split without
`stratify`; otherwise split with `stratify=y`.  Both versions use
`test_size=0.3`.  ai_text_analysis_standalone.py lines 192-194 always
pass `stratify=y`, with no class-count check and no warning. -/

/-- How `train_test_split` is invoked: with or without `stratify=y`. -/
inductive SplitMode
  | stratified
  | plain
deriving DecidableEq, Repr

/-- `pd.Series(y).value_counts().min()`: the size of the smallest class
present in `y` (only defined for nonempty `y`, like the code). -/
def minClassCount (y : List ℤ) : ℕ :=
  (y.dedup.map (fun v => y.count v)).foldr Nat.min y.length

/-- The split decision of `train_ensemble_models` in text_analysis_ml.py,
paired with whether the fallback warning was shown. -/
def tmlSplitChoice (y : List ℤ) : SplitMode × Bool :=
  if minClassCount y < 2 then (SplitMode.plain, true)
  else (SplitMode.stratified, false)

/-- The split decision of `train_ensemble_models` in
ai_text_analysis_standalone.py: always `stratify=y`, never a warning. -/
def standaloneSplitChoice (_y : List ℤ) : SplitMode × Bool :=
  (SplitMode.stratified, false)

/-- `test_size=0.3` in both versions. -/
def testSize : ℚ := 3 / 10

/- ### Per-model training loop

Each of the three model families is fit inside its own `try`; a model
whose fit raises is modelled as `none`, a successful one as `some` of its
scores record.  text_analysis_ml.py lines 327-363: failures are shown via
`st.error` and the loop continues; after the loop, `if not trained_models:
raise ValueError(...)`.  ai_text_analysis_standalone.py lines 205-221:
failures are shown via `st.warning` and the loop continues; there is no
raise, the (possibly empty) dicts are returned. -/

/-- Per-model evaluation scores (`model_scores[name]`). -/
structure ModelScore where
  cv_mean : ℚ
  cv_std : ℚ
  test_score : ℚ
  train_score : ℚ
deriving DecidableEq, Repr

/-- The models that survive the training loop: the fit outcomes with
`some`, keeping names and order. -/
def collectTrained (fits : List (String × Option ModelScore)) :
    List (String × ModelScore) :=
  fits.filterMap (fun p => p.2.map (fun m => (p.1, m)))

/-- The model names whose fit raised; each is reported (via
`st.error` / `st.warning`) as the loop continues. -/
def reportedFailures (fits : List (String × Option ModelScore)) :
    List String :=
  fits.filterMap (fun p => if p.2.isNone then some p.1 else none)

/-- Outcome of `train_ensemble_models` in text_analysis_ml.py: raises
`ValueError` iff no model trained, otherwise returns the trained models. -/
def tmlTrainOutcome (fits : List (String × Option ModelScore)) :
    Except String (List (String × ModelScore)) :=
  let trained := collectTrained fits
  if trained.isEmpty then Except.error "all model training failed"
  else Except.ok trained

/-- Outcome of `train_ensemble_models` in
ai_text_analysis_standalone.py: never raises after the split; returns the
possibly-empty trained-models dict. -/
def standaloneTrainOutcome (fits : List (String × Option ModelScore)) :
    Except String (List (String × ModelScore)) :=
  Except.ok (collectTrained fits)

/- ### Numeric coercion and imputation (`show_text_analysis_ml_page`)

Lines 796-807: each numeric survey column runs through
`pd.to_numeric(col, errors='coerce')`, turning non-parseable cells into
NaN (`none`).  Lines 861-865: after assembling `X`, `if
X.isnull().any().any(): X = X.fillna(0.0)` — missing cells are imputed
with the constant 0.0. -/

/-- A raw spreadsheet cell: a number, a string (as a character list), or
empty. -/
inductive RawCell
  | num (q : ℚ)
  | text (s : List Char)
  | empty
deriving DecidableEq, Repr

/-- Digit-list accumulator for decimal parsing. -/
def parseDigitsAux : List Char → ℕ → Option ℕ
  | [], acc => some acc
  | c :: cs, acc =>
    if c.isDigit then parseDigitsAux cs (10 * acc + (c.toNat - 48))
    else none

/-- Parse a decimal literal (optional sign, digits, optional fractional
part) into `ℚ`; anything else is non-parseable.  Exponent notation is not
modelled. -/
def parseDec (s : List Char) : Option ℚ :=
  let s := pyStrip s
  let (neg, body) : Bool × List Char :=
    match s with
    | '-' :: rest => (true, rest)
    | '+' :: rest => (false, rest)
    | cs => (false, cs)
  let signed : ℚ → ℚ := fun q => if neg then -q else q
  let (ip, rest) := body.span (fun c => c ≠ '.')
  match rest with
  | [] =>
    if ip.isEmpty then none
    else (parseDigitsAux ip 0).map (fun n => signed (n : ℚ))
  | _ :: fp =>
    if fp.any (fun c => c = '.') then none
    else if ip.isEmpty && fp.isEmpty then none
    else
      match parseDigitsAux ip 0, parseDigitsAux fp 0 with
      | some n, some f =>
        some (signed ((n : ℚ) + (f : ℚ) / (10 : ℚ) ^ fp.length))
      | _, _ => none

/-- `pd.to_numeric(cell, errors='coerce')`: numbers pass through,
parseable strings are parsed, everything else becomes NaN (`none`). -/
def pdToNumeric : RawCell → Option ℚ
  | RawCell.num q => some q
  | RawCell.text s => parseDec s
  | RawCell.empty => none

/-- The coerced numeric column: `pd.to_numeric(col, errors='coerce')`. -/
def coerceColumn (col : List RawCell) : List (Option ℚ) :=
  col.map pdToNumeric

/-- `if X.isnull().any().any(): X = X.fillna(0.0)` restricted to one
column: missing cells become 0.0 (a constant, not the column mean). -/
def imputeStep (m : List (Option ℚ)) : List (Option ℚ) :=
  if m.any (fun c => c.isNone) then m.map (fun c => some (c.getD 0)) else m

/-- Modelled from the spec: the spec's imputation step replaces each
missing numeric value with that column's mean over its present values
("impute missing numeric values with that column's mean").  Stated here
only to compare with the code's `fillna(0.0)`. -/
def specMeanImpute (m : List (Option ℚ)) : List (Option ℚ) :=
  let present := m.filterMap id
  let mean := if present.isEmpty then 0 else present.sum / present.length
  m.map (fun c => some (c.getD mean))

/- ### Feature layout at training vs. inference (`show_text_analysis_ml_page`)

Training (lines 788-846): `X = pd.concat([numeric_features,
text_features], axis=1)` with the four numeric survey columns first, then
the `word_<term>` TF-IDF columns; the fitted vectorizer is stored at
session key `'ml_vectorizer'` (line 884).  Inference (lines 1044-1061):
guarded by `'vectorizer' in st.session_state`, and the per-model input is
`st.session_state.vectorizer.transform([processed_text])` alone — just
the TF-IDF columns, no numeric columns. -/

/-- The numeric feature columns used at training (line 789). -/
def numericCols : List String :=
  ["recommend_score", "overall_satisfaction", "long_term_intention",
   "sense_of_contribution"]

/-- The column layout of the training matrix `X`: numeric columns
followed by the TF-IDF vocabulary columns. -/
def trainFeatureCols (vocab : List String) : List String :=
  numericCols ++ vocab.map (fun w => "word_" ++ w)

/-- The column layout of the single-sample inference input: only the
fitted vectorizer's transform output (one column per vocabulary term). -/
def inferenceFeatureCols (vocab : List String) : List String :=
  vocab.map (fun w => "word_" ++ w)

/-- The session-state keys written when training succeeds
(lines 881-884). -/
def sessionKeysAfterTraining : List String :=
  ["ml_models", "ml_scores", "ml_feature_names", "ml_vectorizer"]

/-- The session-state key the prediction tab checks before predicting
(line 1050). -/
def predictionGuardKey : String := "vectorizer"

/- ### Helper lemmas -/

theorem argsortIdx_perm (s : List ℚ) :
    List.Perm (argsortIdx s) (List.range s.length) :=
  List.perm_insertionSort (argRel s) (List.range s.length)

theorem argsortIdx_nodup (s : List ℚ) : (argsortIdx s).Nodup :=
  ((argsortIdx_perm s).nodup_iff).mpr (List.nodup_range _)

theorem argsortIdx_sorted (s : List ℚ) :
    List.Sorted (argRel s) (argsortIdx s) :=
  List.sorted_insertionSort (argRel s) (List.range s.length)

theorem argsortIdx_length (s : List ℚ) :
    (argsortIdx s).length = s.length := by
  simpa using (argsortIdx_perm s).length_eq

theorem lowIdx_nodup (s : List ℚ) : (lowIdx s).Nodup :=
  (argsortIdx_nodup s).sublist (List.take_sublist _ _)

theorem lowIdx_mem_lt (s : List ℚ) {i : ℕ} (h : i ∈ lowIdx s) :
    i < s.length := by
  have hmem : i ∈ argsortIdx s := List.mem_of_mem_take h
  exact List.mem_range.mp ((argsortIdx_perm s).mem_iff.mp hmem)

theorem lowIdx_length (s : List ℚ) :
    (lowIdx s).length = nLow s.length := by
  unfold lowIdx
  rw [List.length_take, argsortIdx_length]
  exact Nat.min_eq_left (Nat.div_le_self _ _)

theorem labelOf_eq_one_iff (s : List ℚ) (i : ℕ) :
    labelOf s i = 1 ↔ i ∈ lowIdx s := by
  unfold labelOf
  split <;> simp_all

theorem labelOf_eq_zero_iff (s : List ℚ) (i : ℕ) :
    labelOf s i = 0 ↔ i ∉ lowIdx s := by
  unfold labelOf
  split <;> simp_all

theorem derivedLabels_getD (s : List ℚ) {i : ℕ} (h : i < s.length) :
    (derivedLabels s).getD i 0 = labelOf s i := by
  unfold derivedLabels
  rw [List.getD_eq_getElem _ _ (by simpa using h)]
  simp

/-- Any label-1 index of the argsort derivation scores no higher than any
label-0 index: the former sits in the sorted prefix, the latter in the
sorted suffix. -/
theorem lowIdx_score_le (s : List ℚ) {i j : ℕ}
    (hi : i ∈ lowIdx s) (hj : j < s.length) (hj' : j ∉ lowIdx s) :
    s.getD i 0 ≤ s.getD j 0 := by
  have hsorted : List.Sorted (argRel s) (argsortIdx s) := argsortIdx_sorted s
  have hsplit := List.take_append_drop (nLow s.length) (argsortIdx s)
  have hpair : List.Pairwise (argRel s)
      ((argsortIdx s).take (nLow s.length) ++
        (argsortIdx s).drop (nLow s.length)) := by
    rw [hsplit]; exact hsorted
  have hcross := (List.pairwise_append.mp hpair).2.2
  have hjmem : j ∈ argsortIdx s :=
    (argsortIdx_perm s).mem_iff.mpr (List.mem_range.mpr hj)
  have hjdrop : j ∈ (argsortIdx s).drop (nLow s.length) := by
    rcases List.mem_append.mp (by rw [hsplit]; exact hjmem) with h | h
    · exact absurd h hj'
    · exact h
  have hrel : argRel s i j := hcross i hi j hjdrop
  rcases hrel with h | ⟨h, _⟩
  · exact le_of_lt h
  · exact le_of_eq h

/-- The argsort derivation assigns exactly `n / 5` ones. -/
theorem derivedLabels_count (s : List ℚ) :
    (derivedLabels s).count 1 = nLow s.length := by
  unfold derivedLabels
  rw [List.count_eq_countP, List.countP_map]
  have hcong : ∀ i ∈ List.range s.length,
      (((fun n => n == 1) ∘ labelOf s) i = true ↔
        decide (i ∈ lowIdx s) = true) := by
    intro i _
    by_cases h : i ∈ lowIdx s <;> simp [labelOf, h]
  rw [List.countP_congr hcong]
  rw [List.countP_eq_length_filter]
  have hperm : List.Perm
      ((List.range s.length).filter (fun i => decide (i ∈ lowIdx s)))
      (lowIdx s) := by
    rw [List.perm_ext_iff_of_nodup
      ((List.nodup_range _).filter _) (lowIdx_nodup s)]
    intro a
    simp only [List.mem_filter, List.mem_range, decide_eq_true_eq]
    exact ⟨fun h => h.2, fun h => ⟨lowIdx_mem_lt s h, h⟩⟩
  rw [hperm.length_eq, lowIdx_length]

theorem tokenFilter_not_digit (raw : List (List Char)) (t : List Char)
    (ht : t ∈ tokenFilter raw) : pyIsDigit t = false := by
  unfold tokenFilter at ht
  have hcond := (List.mem_filter.mp ht).2
  have hnot := (Bool.and_eq_true _ _).mp hcond |>.2
  simpa using hnot

theorem ilp_getD (s : List ℚ) {i : ℕ} (h : i < s.length) :
    (identifyLowPerformers s).getD i 0 =
      if s.getD i 0 ≤ quantile02 s then 1 else 0 := by
  unfold identifyLowPerformers
  rw [List.getD_eq_getElem _ _ (by simpa using h), List.getElem_map]
  rw [List.getD_eq_getElem _ _ h]

theorem imputeStep_isSome (m : List (Option ℚ)) :
    ∀ c ∈ imputeStep m, c.isSome = true := by
  intro c hc
  unfold imputeStep at hc
  split at hc
  · rcases List.mem_map.mp hc with ⟨x, _, rfl⟩
    rfl
  · rename_i h
    simp only [List.any_eq_true] at h
    cases c with
    | none => exact absurd ⟨none, hc, rfl⟩ h
    | some v => rfl

theorem imputeStep_getD_zero (m : List (Option ℚ)) (i : ℕ)
    (hi : i < m.length) (h : m.getD i none = none) :
    (imputeStep m).getD i none = some 0 := by
  rw [List.getD_eq_getElem _ _ hi] at h
  have hany : m.any (fun c => c.isNone) = true := by
    rw [List.any_eq_true]
    exact ⟨m[i], List.getElem_mem _, by rw [h]; rfl⟩
  unfold imputeStep
  rw [if_pos hany]
  rw [List.getD_eq_getElem _ _ (by simpa using hi), List.getElem_map]
  simp [h]

/-- Claim C1 (code bug in the inference path): the prediction tab is
guarded by the session key `'vectorizer'`, but training stores the fitted
vectorizer under `'ml_vectorizer'`, so single-sample prediction right
after training never runs; and even past that guard the inference input
is `vectorizer.transform([...])` alone, whose column layout (only the
TF-IDF vocabulary columns) never matches the training layout (the four
numeric survey columns followed by the TF-IDF columns).  So the code does
not reproduce training-time predictions as the claim requires. -/
theorem C1_train_inference_mismatch :
    predictionGuardKey ∉ sessionKeysAfterTraining ∧
    ∀ vocab : List String,
      inferenceFeatureCols vocab ≠ trainFeatureCols vocab := by
  constructor
  · decide
  · intro vocab h
    have hlen := congrArg List.length h
    simp only [inferenceFeatureCols, trainFeatureCols, numericCols,
      List.length_map, List.length_append, List.length_cons,
      List.length_nil] at hlen
    omega

/-- Claim C2, counterexample: `identify_low_performers` compares scores
to the 20% quantile value, so on five equal scores it labels all five
rows 1, while `round(0.2 * 5) = 1`. -/
theorem C2_round_count_counterexample :
    (identifyLowPerformers [3, 3, 3, 3, 3]).count 1 = 5 ∧
    pyRound ((2 / 10) * 5) = 1 ∧
    ((identifyLowPerformers [3, 3, 3, 3, 3]).count 1 : ℤ) ≠
      pyRound ((2 / 10) * 5) := by
  have h1 : (identifyLowPerformers [3, 3, 3, 3, 3]).count 1 = 5 := by
    norm_num [identifyLowPerformers, quantile02, List.count_cons]
  have h2 : pyRound ((2 / 10) * 5) = 1 := by norm_num [pyRound]
  refine ⟨h1, h2, ?_⟩
  rw [h1, h2]
  decide

/-- Claim C2, amended: the argsort-based derivation of
`load_real_data_for_analysis` labels exactly `int(0.2 * N) = N / 5`
records 1 (floor, not round) for every N ≥ 5, regardless of the score
distribution; `identify_low_performers` is instead a fixed-threshold
comparison whose label-1 count can exceed that under ties. -/
theorem C2_floor_count (s : List ℚ) (_h : 5 ≤ s.length) :
    (derivedLabels s).count 1 = s.length / 5 :=
  derivedLabels_count s

theorem C2_floor_count_witness :
    5 ≤ ([5, 1, 3, 2, 4] : List ℚ).length ∧
    (derivedLabels [5, 1, 3, 2, 4]).count 1 =
      ([5, 1, 3, 2, 4] : List ℚ).length / 5 :=
  ⟨by decide, C2_floor_count [5, 1, 3, 2, 4] (by decide)⟩

/-- Claim C3, counterexample: the pipeline imputes missing numeric cells
with the constant 0.0 (`X = X.fillna(0.0)`), not with the column mean the
claim states: on the column `[NaN, 2]` the code produces `[0, 2]` whereas
mean imputation would produce `[2, 2]`. -/
theorem C3_mean_imputation_counterexample :
    imputeStep [none, some 2] = [some 0, some 2] ∧
    specMeanImpute [none, some 2] = [some 2, some 2] ∧
    imputeStep [none, some 2] ≠ specMeanImpute [none, some 2] := by
  have h1 : imputeStep [none, some 2] = [some 0, some 2] := by decide
  have h2 : specMeanImpute [none, some 2] = [some 2, some 2] := by
    simp [specMeanImpute]
  refine ⟨h1, h2, ?_⟩
  rw [h1, h2]
  decide

/-- Claim C3, amended: every numeric survey column is coerced with
`pd.to_numeric(..., errors='coerce')` (non-parseable cells become
missing), and the assembled matrix is then imputed with the constant 0.0,
so the matrix handed to training has no missing cells and each
originally-missing cell holds 0. -/
theorem C3_zero_imputation (col : List RawCell) :
    (∀ c ∈ imputeStep (coerceColumn col), c.isSome = true) ∧
    (∀ i, i < col.length → (coerceColumn col).getD i none = none →
      (imputeStep (coerceColumn col)).getD i none = some 0) := by
  constructor
  · exact imputeStep_isSome (coerceColumn col)
  · intro i hi h
    exact imputeStep_getD_zero _ i (by simpa [coerceColumn] using hi) h

theorem C3_zero_imputation_witness :
    (some (0 : ℚ)).isSome = true ∧
    (imputeStep (coerceColumn [RawCell.empty, RawCell.num 2])).getD 0 none
      = some 0 :=
  ⟨(C3_zero_imputation [RawCell.empty, RawCell.num 2]).1 (some 0)
      (by decide),
   (C3_zero_imputation [RawCell.empty, RawCell.num 2]).2 0 (by decide)
      (by decide)⟩

/-- Claim C4, counterexample: in the standalone version, when every model
family fails to fit, `train_ensemble_models` does not raise — it returns
empty model and score dicts — so "raises iff zero models trained" fails. -/
theorem C4_standalone_no_raise_counterexample :
    collectTrained [("Decision Tree", (none : Option ModelScore)),
      ("Random Forest", none), ("Gradient Boosting", none)] = [] ∧
    standaloneTrainOutcome [("Decision Tree", none), ("Random Forest", none),
      ("Gradient Boosting", none)] = Except.ok [] ∧
    ∀ e, standaloneTrainOutcome [("Decision Tree", none),
      ("Random Forest", none), ("Gradient Boosting", none)] ≠
        Except.error e := by
  refine ⟨rfl, rfl, ?_⟩
  intro e h
  exact Except.noConfusion h

/-- Claim C4, amended: in both versions one model's fit failure does not
abort the others (every successful fit stays in the result and every
failure is reported), and `train_ensemble_models` of text_analysis_ml.py
raises iff zero models trained; the standalone version never raises,
returning the possibly-empty dicts instead. -/
theorem C4_per_model_isolation (fits : List (String × Option ModelScore)) :
    (∀ name m, (name, some m) ∈ fits → (name, m) ∈ collectTrained fits) ∧
    (∀ name, (name, (none : Option ModelScore)) ∈ fits →
      name ∈ reportedFailures fits) ∧
    ((∃ e, tmlTrainOutcome fits = Except.error e) ↔
      collectTrained fits = []) ∧
    standaloneTrainOutcome fits = Except.ok (collectTrained fits) := by
  refine ⟨?_, ?_, ?_, rfl⟩
  · intro name m h
    exact List.mem_filterMap.mpr ⟨(name, some m), h, rfl⟩
  · intro name h
    exact List.mem_filterMap.mpr ⟨(name, none), h, rfl⟩
  · by_cases h : collectTrained fits = [] <;>
      simp [tmlTrainOutcome, List.isEmpty_iff, h]

theorem C4_per_model_isolation_witness :
    ("Decision Tree", (⟨1, 0, 1, 1⟩ : ModelScore)) ∈
      collectTrained [("Decision Tree", some ⟨1, 0, 1, 1⟩),
        ("Random Forest", none), ("Gradient Boosting", some ⟨1, 0, 1, 1⟩)] ∧
    "Random Forest" ∈
      reportedFailures [("Decision Tree", some ⟨1, 0, 1, 1⟩),
        ("Random Forest", none), ("Gradient Boosting", some ⟨1, 0, 1, 1⟩)] :=
  ⟨(C4_per_model_isolation _).1 "Decision Tree" ⟨1, 0, 1, 1⟩
      (List.Mem.head _),
   (C4_per_model_isolation _).2.1 "Random Forest"
      (List.Mem.tail _ (List.Mem.head _))⟩

/-- Claim C5, counterexample: the standalone `train_ensemble_models`
always passes `stratify=y` and never warns, even when a class has a
single member (here class 1). -/
theorem C5_standalone_split_counterexample :
    minClassCount [0, 0, 0, 1] = 1 ∧
    standaloneSplitChoice [0, 0, 0, 1] = (SplitMode.stratified, false) :=
  ⟨by decide, rfl⟩

/-- Claim C5, amended: both versions split with `test_size=0.3`;
`train_ensemble_models` of text_analysis_ml.py stratifies iff every class
in `y` has at least 2 members and warns exactly when it falls back to an
unstratified split, while the standalone version always stratifies with
no fallback and no warning. -/
theorem C5_split_modes (y : List ℤ) :
    testSize = 3 / 10 ∧
    (tmlSplitChoice y = (SplitMode.stratified, false) ↔
      2 ≤ minClassCount y) ∧
    (tmlSplitChoice y = (SplitMode.plain, true) ↔ minClassCount y < 2) ∧
    standaloneSplitChoice y = (SplitMode.stratified, false) := by
  refine ⟨rfl, ?_, ?_, rfl⟩ <;>
    by_cases h : minClassCount y < 2 <;>
      first
      | (simp [tmlSplitChoice, h]; omega)
      | simp [tmlSplitChoice, h]

theorem C5_split_modes_witness :
    tmlSplitChoice [0, 0, 1, 1] = (SplitMode.stratified, false) ∧
    tmlSplitChoice [0, 0, 0, 1] = (SplitMode.plain, true) :=
  ⟨((C5_split_modes [0, 0, 1, 1]).2.1).mpr (by decide),
   ((C5_split_modes [0, 0, 0, 1]).2.2.1).mpr (by decide)⟩

/-- Claim C6 (confirmed): `japanese_tokenizer` is total; missing or blank
input yields the empty token list; and no returned token is purely
numeric — the post-tokenization filter drops digit-only tokens whatever
tokenization method (including the regex fallback) produced them. -/
theorem C6_tokenizer_total :
    japaneseTokenizer none = [] ∧
    (∀ s : List Char, pyStrip s = [] → japaneseTokenizer (some s) = []) ∧
    (∀ raw t, t ∈ tokenFilter raw → pyIsDigit t = false) ∧
    (∀ s t, t ∈ japaneseTokenizer (some s) → pyIsDigit t = false) := by
  refine ⟨rfl, ?_, ?_, ?_⟩
  · intro s h
    simp [japaneseTokenizer, h]
  · exact tokenFilter_not_digit
  · intro s t ht
    unfold japaneseTokenizer at ht
    by_cases h : (pyStrip s).isEmpty
    · simp [h] at ht
    · simp only [h, if_false, Bool.false_eq_true] at ht
      exact tokenFilter_not_digit _ _ ht

theorem C6_tokenizer_total_witness :
    japaneseTokenizer (some [' ', ' ']) = [] ∧
    pyIsDigit ['a', 'b'] = false :=
  ⟨C6_tokenizer_total.2.1 [' ', ' '] (by decide),
   C6_tokenizer_total.2.2.2 ['1', '2', ' ', 'a', 'b'] ['a', 'b']
      (by decide)⟩

/-- Claim C7 (code bug): on four scores, `int(4 * 0.2) = 0` rows get
label 1 and `load_real_data_for_analysis` silently returns the all-zero
label column, with no failure signal of any kind — the deriver has no
error channel at all — contrary to the required insufficient-data
failure. -/
theorem C7_silent_single_class :
    nLow ([1, 2, 3, 4] : List ℚ).length = 0 ∧
    derivedLabels [1, 2, 3, 4] = [0, 0, 0, 0] ∧
    (derivedLabels [1, 2, 3, 4]).count 1 = 0 := by decide

/-- Claim C8 (confirmed): whenever at least one model produced a
class-probability vector (in this binary pipeline, one probability per
class), the reported confidence is the mean over those models of
`max(prob) - min(prob)`. -/
theorem C8_confidence_spread (probs : List (List ℚ)) (hne : probs ≠ [])
    (h2 : ∀ p ∈ probs, p.length = 2) :
    avgConfidence probs =
      some ((probs.map (fun p => pyMax p - pyMin p)).sum /
        (probs.length : ℚ)) := by
  have hfilter : probs.filter (fun p => decide (2 ≤ p.length)) = probs := by
    apply List.filter_eq_self.mpr
    intro p hp
    simp [h2 p hp]
  unfold avgConfidence confidenceScores
  rw [hfilter]
  have hlen : ((probs.map (fun p => pyMax p - pyMin p)).isEmpty) = false := by
    cases probs with
    | nil => exact absurd rfl hne
    | cons a l => rfl
  simp only [hlen, Bool.false_eq_true, if_false, List.length_map]

theorem C8_confidence_spread_witness :
    ([[(0 : ℚ), 1], [1, 0]] : List (List ℚ)) ≠ [] ∧
    avgConfidence [[(0 : ℚ), 1], [1, 0]] =
      some ((([[(0 : ℚ), 1], [1, 0]] : List (List ℚ)).map
        (fun p => pyMax p - pyMin p)).sum /
        (([[(0 : ℚ), 1], [1, 0]] : List (List ℚ)).length : ℚ)) :=
  ⟨by simp, C8_confidence_spread [[0, 1], [1, 0]] (by simp) (by decide)⟩

/-- Claim C9 (confirmed): both label derivations are threshold-monotone —
every record labelled 1 has a satisfaction score less than or equal to
the score of every record labelled 0 (positions `i`, `j` within the score
list). -/
theorem C9_label_monotone (s : List ℚ) (i j : ℕ) (hi : i < s.length)
    (hj : j < s.length) :
    ((identifyLowPerformers s).getD i 0 = 1 →
      (identifyLowPerformers s).getD j 0 = 0 →
        s.getD i 0 ≤ s.getD j 0) ∧
    ((derivedLabels s).getD i 0 = 1 →
      (derivedLabels s).getD j 0 = 0 → s.getD i 0 ≤ s.getD j 0) := by
  constructor
  · intro h1 h0
    rw [ilp_getD s hi] at h1
    rw [ilp_getD s hj] at h0
    have hle : s.getD i 0 ≤ quantile02 s := by
      by_contra hc
      rw [if_neg hc] at h1
      exact absurd h1 (by decide)
    have hgt : ¬ s.getD j 0 ≤ quantile02 s := by
      intro hc
      rw [if_pos hc] at h0
      exact absurd h0 (by decide)
    exact hle.trans (le_of_lt (not_le.mp hgt))
  · intro h1 h0
    rw [derivedLabels_getD s hi] at h1
    rw [derivedLabels_getD s hj] at h0
    exact lowIdx_score_le s ((labelOf_eq_one_iff s i).mp h1) hj
      ((labelOf_eq_zero_iff s j).mp h0)

theorem C9_label_monotone_witness :
    ([5, 1, 3, 2, 4] : List ℚ).getD 1 0 ≤
      ([5, 1, 3, 2, 4] : List ℚ).getD 0 0 ∧
    ([5, 1, 3, 2, 4] : List ℚ).getD 1 0 ≤
      ([5, 1, 3, 2, 4] : List ℚ).getD 0 0 :=
  ⟨(C9_label_monotone [5, 1, 3, 2, 4] 1 0 (by decide) (by decide)).1
      (by norm_num [identifyLowPerformers, quantile02])
      (by norm_num [identifyLowPerformers, quantile02]),
   (C9_label_monotone [5, 1, 3, 2, 4] 1 0 (by decide) (by decide)).2
      (by decide) (by decide)⟩

/-- Claim C10 (confirmed): with two surviving per-model predictions that
disagree (a 1-1 vote tie), `Counter(...).most_common(1)` returns the
first-encountered label, i.e. the prediction of the model that comes
first in the trained-models dict's iteration order (the decision tree
when it survived, given `modelConstructionOrder`). -/
theorem C10_vote_tie_first_model (n1 n2 : String) (v1 v2 : Bool)
    (h : v1 ≠ v2) :
    modelConstructionOrder.head? = some "Decision Tree" ∧
    ensemblePred [(n1, v1), (n2, v2)] = some v1 := by
  refine ⟨rfl, ?_⟩
  cases v1 <;> cases v2
  · exact absurd rfl h
  · rfl
  · rfl
  · exact absurd rfl h

theorem C10_vote_tie_first_model_witness :
    (true ≠ false) ∧
    ensemblePred [("Decision Tree", true), ("Gradient Boosting", false)] =
      some true :=
  ⟨by decide,
   (C10_vote_tie_first_model "Decision Tree" "Gradient Boosting" true false
      (by decide)).2⟩
